import Mathlib

/-!
Verification of the NASDAQ TotalView-ITCH 5.0 pcap-to-Parquet converter
(`src/nasdaq/nasdaq_equities_totalview_itch_v5_0.cpp`), a shallow embedding of
the byte-level decode pipeline: field codecs, the packet demuxer, the
MoldUDP64 framer loop in `converter::process`, the catalog dispatch, the
Parquet schema declared by `record::nodes`, and the stream write/read
operators used for the round-trip pass.

Packet memory is modelled as a total function `Nat → Nat` (a `u_char*` view:
every offset yields a byte), so out-of-bounds reads behave as in the C++
program (they read whatever lies there) instead of failing.  The unbounded
`while` loops of the source are given an explicit fuel parameter together
with a flag telling whether the loop exited through its own guard; running
out of fuel models the real machine running off the end of its buffer.
-/

namespace OmiItch

/-- Packet memory seen through a `u_char*`: byte at each absolute offset. -/
abbrev Mem := Nat → Nat

/-- Read one byte (`u_char` semantics, so reduce modulo 256). -/
def byteAt (m : Mem) (i : Nat) : Nat := m i % 256

/-- Big-endian read of `n` bytes starting at `p`.  Embeds the
`htobe16/htobe32/htobe64(*reinterpret_cast<..>(p))` pattern of the integer
field `set` members (the host is little-endian, so `htobeN` byte-swaps) and
the byte-by-byte `(value << 8) + **current` loop of `timestamp::set`. -/
def readBE (m : Mem) (p : Nat) : Nat → Nat
  | 0 => 0
  | n + 1 => readBE m p n * 256 + byteAt m (p + n)

/-- The `n` raw bytes starting at `p` (e.g. `session::set`, which copies its
ten bytes verbatim, spaces included). -/
def bytesAt (m : Mem) (p : Nat) (n : Nat) : List Nat :=
  (List.range n).map fun i => byteAt m (p + i)

/-- Index of the first `0x20` byte within the next `n` bytes (or `n` when no
space occurs): the `for (; index < size; ++index) if (.. == ' ') break;` scan
shared by `stock::set`, `attribution::set`, `mpid::set`, `reason::set` and
`issue_sub_type::set`. -/
def scanIndex (m : Mem) (p : Nat) : Nat → Nat
  | 0 => 0
  | n + 1 => if byteAt m p = 32 then 0 else scanIndex m (p + 1) n + 1

/-- Fixed-width-ASCII decode: the scanned prefix of the `n`-byte body, i.e.
`std::string_view(current, index)` after the space scan. -/
def asciiField (m : Mem) (p : Nat) (n : Nat) : List Nat :=
  (bytesAt m p n).take (scanIndex m p n)

/-- Concrete memory built from a byte list (bytes past the end read as 0). -/
def memOf (l : List Nat) : Mem := fun i => l.getD i 0

/-- One output row: the 67 Parquet columns of `record` (framing columns
always present, message columns optional).  `message_length` is parsed by the
framer but is not a column, hence not a field here. -/
structure Row where
  pcap_index : Nat
  pcap_timestamp : Int
  session : List Nat
  message_sequence : Nat
  message_index : Nat
  message_type : Nat
  attribution : Option (List Nat) := none
  auction_collar_extension : Option Nat := none
  auction_collar_reference_price : Option Nat := none
  authenticity : Option Nat := none
  breached_level : Option Nat := none
  buy_sell_indicator : Option Nat := none
  canceled_shares : Option Nat := none
  cross_price : Option Nat := none
  cross_shares : Option Nat := none
  cross_type : Option Nat := none
  current_reference_price : Option Nat := none
  etp_flag : Option Nat := none
  etp_leverage_factor : Option Nat := none
  event_code : Option Nat := none
  executed_shares : Option Nat := none
  execution_price : Option Nat := none
  far_price : Option Nat := none
  financial_status_indicator : Option Nat := none
  imbalance_direction : Option Nat := none
  imbalance_shares : Option Nat := none
  interest_flag : Option Nat := none
  inverse_indicator : Option Nat := none
  ipo_flag : Option Nat := none
  ipo_price : Option Nat := none
  ipo_quotation_release_qualifier : Option Nat := none
  ipo_quotation_release_time : Option Nat := none
  issue_classification : Option Nat := none
  issue_sub_type : Option (List Nat) := none
  level_1 : Option Nat := none
  level_2 : Option Nat := none
  level_3 : Option Nat := none
  locate_code : Option Nat := none
  lower_auction_collar_price : Option Nat := none
  luld_reference_price_tier : Option Nat := none
  market_category : Option Nat := none
  market_maker_mode : Option Nat := none
  market_participant_state : Option Nat := none
  match_number : Option Nat := none
  mpid : Option (List Nat) := none
  near_price : Option Nat := none
  new_order_reference_number : Option Nat := none
  order_reference_number : Option Nat := none
  original_order_reference_number : Option Nat := none
  paired_shares : Option Nat := none
  price : Option Nat := none
  price_variation_indicator : Option Nat := none
  primary_market_maker : Option Nat := none
  printable : Option Nat := none
  reason : Option (List Nat) := none
  reg_sho_action : Option Nat := none
  reserved : Option Nat := none
  round_lot_size : Option Nat := none
  round_lots_only : Option Nat := none
  shares : Option Nat := none
  short_sale_threshold_indicator : Option Nat := none
  stock : Option (List Nat) := none
  stock_locate : Option Nat := none
  timestamp : Option Nat := none
  tracking_number : Option Nat := none
  trading_state : Option Nat := none
  upper_auction_collar_price : Option Nat := none
  deriving DecidableEq

/-- The 61 optional message-field columns, one constructor per `record`
message member. -/
inductive Field where
  | attribution | auction_collar_extension | auction_collar_reference_price
  | authenticity | breached_level | buy_sell_indicator | canceled_shares
  | cross_price | cross_shares | cross_type | current_reference_price
  | etp_flag | etp_leverage_factor | event_code | executed_shares
  | execution_price | far_price | financial_status_indicator
  | imbalance_direction | imbalance_shares | interest_flag
  | inverse_indicator | ipo_flag | ipo_price
  | ipo_quotation_release_qualifier | ipo_quotation_release_time
  | issue_classification | issue_sub_type | level_1 | level_2 | level_3
  | locate_code | lower_auction_collar_price | luld_reference_price_tier
  | market_category | market_maker_mode | market_participant_state
  | match_number | mpid | near_price | new_order_reference_number
  | order_reference_number | original_order_reference_number
  | paired_shares | price | price_variation_indicator
  | primary_market_maker | printable | reason | reg_sho_action
  | reserved | round_lot_size | round_lots_only | shares
  | short_sale_threshold_indicator | stock | stock_locate | timestamp
  | tracking_number | trading_state | upper_auction_collar_price
  deriving DecidableEq

/-- Whether a given message-field column is present (non-null) in a row. -/
def msgPresent (r : Row) : Field → Bool
  | .attribution => r.attribution.isSome
  | .auction_collar_extension => r.auction_collar_extension.isSome
  | .auction_collar_reference_price => r.auction_collar_reference_price.isSome
  | .authenticity => r.authenticity.isSome
  | .breached_level => r.breached_level.isSome
  | .buy_sell_indicator => r.buy_sell_indicator.isSome
  | .canceled_shares => r.canceled_shares.isSome
  | .cross_price => r.cross_price.isSome
  | .cross_shares => r.cross_shares.isSome
  | .cross_type => r.cross_type.isSome
  | .current_reference_price => r.current_reference_price.isSome
  | .etp_flag => r.etp_flag.isSome
  | .etp_leverage_factor => r.etp_leverage_factor.isSome
  | .event_code => r.event_code.isSome
  | .executed_shares => r.executed_shares.isSome
  | .execution_price => r.execution_price.isSome
  | .far_price => r.far_price.isSome
  | .financial_status_indicator => r.financial_status_indicator.isSome
  | .imbalance_direction => r.imbalance_direction.isSome
  | .imbalance_shares => r.imbalance_shares.isSome
  | .interest_flag => r.interest_flag.isSome
  | .inverse_indicator => r.inverse_indicator.isSome
  | .ipo_flag => r.ipo_flag.isSome
  | .ipo_price => r.ipo_price.isSome
  | .ipo_quotation_release_qualifier => r.ipo_quotation_release_qualifier.isSome
  | .ipo_quotation_release_time => r.ipo_quotation_release_time.isSome
  | .issue_classification => r.issue_classification.isSome
  | .issue_sub_type => r.issue_sub_type.isSome
  | .level_1 => r.level_1.isSome
  | .level_2 => r.level_2.isSome
  | .level_3 => r.level_3.isSome
  | .locate_code => r.locate_code.isSome
  | .lower_auction_collar_price => r.lower_auction_collar_price.isSome
  | .luld_reference_price_tier => r.luld_reference_price_tier.isSome
  | .market_category => r.market_category.isSome
  | .market_maker_mode => r.market_maker_mode.isSome
  | .market_participant_state => r.market_participant_state.isSome
  | .match_number => r.match_number.isSome
  | .mpid => r.mpid.isSome
  | .near_price => r.near_price.isSome
  | .new_order_reference_number => r.new_order_reference_number.isSome
  | .order_reference_number => r.order_reference_number.isSome
  | .original_order_reference_number => r.original_order_reference_number.isSome
  | .paired_shares => r.paired_shares.isSome
  | .price => r.price.isSome
  | .price_variation_indicator => r.price_variation_indicator.isSome
  | .primary_market_maker => r.primary_market_maker.isSome
  | .printable => r.printable.isSome
  | .reason => r.reason.isSome
  | .reg_sho_action => r.reg_sho_action.isSome
  | .reserved => r.reserved.isSome
  | .round_lot_size => r.round_lot_size.isSome
  | .round_lots_only => r.round_lots_only.isSome
  | .shares => r.shares.isSome
  | .short_sale_threshold_indicator => r.short_sale_threshold_indicator.isSome
  | .stock => r.stock.isSome
  | .stock_locate => r.stock_locate.isSome
  | .timestamp => r.timestamp.isSome
  | .tracking_number => r.tracking_number.isSome
  | .trading_state => r.trading_state.isSome
  | .upper_auction_collar_price => r.upper_auction_collar_price.isSome

/-- The `record::reset` member: every optional message slot back to absent;
framing fields untouched. -/
def resetMessages (r : Row) : Row :=
  { pcap_index := r.pcap_index, pcap_timestamp := r.pcap_timestamp,
    session := r.session, message_sequence := r.message_sequence,
    message_index := r.message_index, message_type := r.message_type }

/-- Handler for type `S` (`process_system_event_message`): stock_locate(2),
tracking_number(2), timestamp(6), event_code(1), read in order from the body
cursor `p` (the byte after the type tag). -/
def process_system_event_message (m : Mem) (p : Nat) (r : Row) : Row :=
  { r with stock_locate := some (readBE m p 2),
           tracking_number := some (readBE m (p + 2) 2),
           timestamp := some (readBE m (p + 4) 6),
           event_code := some (byteAt m (p + 10)) }

/-- Handler for type `R` (`process_stock_directory_message`). -/
def process_stock_directory_message (m : Mem) (p : Nat) (r : Row) : Row :=
  { r with stock_locate := some (readBE m p 2),
           tracking_number := some (readBE m (p + 2) 2),
           timestamp := some (readBE m (p + 4) 6),
           stock := some (asciiField m (p + 10) 8),
           market_category := some (byteAt m (p + 18)),
           financial_status_indicator := some (byteAt m (p + 19)),
           round_lot_size := some (readBE m (p + 20) 4),
           round_lots_only := some (byteAt m (p + 24)),
           issue_classification := some (byteAt m (p + 25)),
           issue_sub_type := some (asciiField m (p + 26) 2),
           authenticity := some (byteAt m (p + 28)),
           short_sale_threshold_indicator := some (byteAt m (p + 29)),
           ipo_flag := some (byteAt m (p + 30)),
           luld_reference_price_tier := some (byteAt m (p + 31)),
           etp_flag := some (byteAt m (p + 32)),
           etp_leverage_factor := some (readBE m (p + 33) 4),
           inverse_indicator := some (byteAt m (p + 37)) }

/-- Handler for type `H` (`process_stock_trading_action_message`). -/
def process_stock_trading_action_message (m : Mem) (p : Nat) (r : Row) : Row :=
  { r with stock_locate := some (readBE m p 2),
           tracking_number := some (readBE m (p + 2) 2),
           timestamp := some (readBE m (p + 4) 6),
           stock := some (asciiField m (p + 10) 8),
           trading_state := some (byteAt m (p + 18)),
           reserved := some (byteAt m (p + 19)),
           reason := some (asciiField m (p + 20) 4) }

/-- Handler for type `Y`
(`process_reg_sho_short_sale_price_test_restricted_indicator_message`). -/
def process_reg_sho_message (m : Mem) (p : Nat) (r : Row) : Row :=
  { r with locate_code := some (readBE m p 2),
           tracking_number := some (readBE m (p + 2) 2),
           timestamp := some (readBE m (p + 4) 6),
           stock := some (asciiField m (p + 10) 8),
           reg_sho_action := some (byteAt m (p + 18)) }

/-- Handler for type `L` (`process_market_participant_position_message`). -/
def process_market_participant_position_message (m : Mem) (p : Nat) (r : Row) : Row :=
  { r with stock_locate := some (readBE m p 2),
           tracking_number := some (readBE m (p + 2) 2),
           timestamp := some (readBE m (p + 4) 6),
           mpid := some (asciiField m (p + 10) 4),
           stock := some (asciiField m (p + 14) 8),
           primary_market_maker := some (byteAt m (p + 22)),
           market_maker_mode := some (byteAt m (p + 23)),
           market_participant_state := some (byteAt m (p + 24)) }

/-- Handler for type `V` (`process_mwcb_decline_level_message`). -/
def process_mwcb_decline_level_message (m : Mem) (p : Nat) (r : Row) : Row :=
  { r with stock_locate := some (readBE m p 2),
           tracking_number := some (readBE m (p + 2) 2),
           timestamp := some (readBE m (p + 4) 6),
           level_1 := some (readBE m (p + 10) 8),
           level_2 := some (readBE m (p + 18) 8),
           level_3 := some (readBE m (p + 26) 8) }

/-- Handler for type `W` (`process_mwcb_status_level_message`). -/
def process_mwcb_status_level_message (m : Mem) (p : Nat) (r : Row) : Row :=
  { r with stock_locate := some (readBE m p 2),
           tracking_number := some (readBE m (p + 2) 2),
           timestamp := some (readBE m (p + 4) 6),
           breached_level := some (byteAt m (p + 10)) }

/-- Handler for type `K` (`process_ipo_quoting_period_update`). -/
def process_ipo_quoting_period_update (m : Mem) (p : Nat) (r : Row) : Row :=
  { r with stock_locate := some (readBE m p 2),
           tracking_number := some (readBE m (p + 2) 2),
           timestamp := some (readBE m (p + 4) 6),
           stock := some (asciiField m (p + 10) 8),
           ipo_quotation_release_time := some (readBE m (p + 18) 4),
           ipo_quotation_release_qualifier := some (byteAt m (p + 22)),
           ipo_price := some (readBE m (p + 23) 4) }

/-- Handler for type `A` (`process_add_order_no_mpid_attribution_message`). -/
def process_add_order_no_mpid_attribution_message (m : Mem) (p : Nat) (r : Row) : Row :=
  { r with stock_locate := some (readBE m p 2),
           tracking_number := some (readBE m (p + 2) 2),
           timestamp := some (readBE m (p + 4) 6),
           order_reference_number := some (readBE m (p + 10) 8),
           buy_sell_indicator := some (byteAt m (p + 18)),
           shares := some (readBE m (p + 19) 4),
           stock := some (asciiField m (p + 23) 8),
           price := some (readBE m (p + 31) 4) }

/-- Handler for type `J` (`process_luld_auction_collar_message`). -/
def process_luld_auction_collar_message (m : Mem) (p : Nat) (r : Row) : Row :=
  { r with stock_locate := some (readBE m p 2),
           tracking_number := some (readBE m (p + 2) 2),
           timestamp := some (readBE m (p + 4) 6),
           stock := some (asciiField m (p + 10) 8),
           auction_collar_reference_price := some (readBE m (p + 18) 4),
           upper_auction_collar_price := some (readBE m (p + 22) 4),
           lower_auction_collar_price := some (readBE m (p + 26) 4),
           auction_collar_extension := some (readBE m (p + 30) 4) }

/-- Handler for type `F` (`process_add_order_with_mpid_attribution_message`). -/
def process_add_order_with_mpid_attribution_message (m : Mem) (p : Nat) (r : Row) : Row :=
  { r with stock_locate := some (readBE m p 2),
           tracking_number := some (readBE m (p + 2) 2),
           timestamp := some (readBE m (p + 4) 6),
           order_reference_number := some (readBE m (p + 10) 8),
           buy_sell_indicator := some (byteAt m (p + 18)),
           shares := some (readBE m (p + 19) 4),
           stock := some (asciiField m (p + 23) 8),
           price := some (readBE m (p + 31) 4),
           attribution := some (asciiField m (p + 35) 4) }

/-- Handler for type `E` (`process_order_executed_message`). -/
def process_order_executed_message (m : Mem) (p : Nat) (r : Row) : Row :=
  { r with stock_locate := some (readBE m p 2),
           tracking_number := some (readBE m (p + 2) 2),
           timestamp := some (readBE m (p + 4) 6),
           order_reference_number := some (readBE m (p + 10) 8),
           executed_shares := some (readBE m (p + 18) 4),
           match_number := some (readBE m (p + 22) 8) }

/-- Handler for type `C` (`process_order_executed_with_price_message`). -/
def process_order_executed_with_price_message (m : Mem) (p : Nat) (r : Row) : Row :=
  { r with stock_locate := some (readBE m p 2),
           tracking_number := some (readBE m (p + 2) 2),
           timestamp := some (readBE m (p + 4) 6),
           order_reference_number := some (readBE m (p + 10) 8),
           executed_shares := some (readBE m (p + 18) 4),
           match_number := some (readBE m (p + 22) 8),
           printable := some (byteAt m (p + 30)),
           execution_price := some (readBE m (p + 31) 4) }

/-- Handler for type `X` (`process_order_cancel_message`). -/
def process_order_cancel_message (m : Mem) (p : Nat) (r : Row) : Row :=
  { r with stock_locate := some (readBE m p 2),
           tracking_number := some (readBE m (p + 2) 2),
           timestamp := some (readBE m (p + 4) 6),
           order_reference_number := some (readBE m (p + 10) 8),
           canceled_shares := some (readBE m (p + 18) 4) }

/-- Handler for type `D` (`process_order_delete_message`). -/
def process_order_delete_message (m : Mem) (p : Nat) (r : Row) : Row :=
  { r with stock_locate := some (readBE m p 2),
           tracking_number := some (readBE m (p + 2) 2),
           timestamp := some (readBE m (p + 4) 6),
           order_reference_number := some (readBE m (p + 10) 8) }

/-- Handler for type `U` (`process_order_replace_message`). -/
def process_order_replace_message (m : Mem) (p : Nat) (r : Row) : Row :=
  { r with stock_locate := some (readBE m p 2),
           tracking_number := some (readBE m (p + 2) 2),
           timestamp := some (readBE m (p + 4) 6),
           original_order_reference_number := some (readBE m (p + 10) 8),
           new_order_reference_number := some (readBE m (p + 18) 8),
           shares := some (readBE m (p + 26) 4),
           price := some (readBE m (p + 30) 4) }

/-- Handler for type `P` (`process_non_cross_trade_message`). -/
def process_non_cross_trade_message (m : Mem) (p : Nat) (r : Row) : Row :=
  { r with stock_locate := some (readBE m p 2),
           tracking_number := some (readBE m (p + 2) 2),
           timestamp := some (readBE m (p + 4) 6),
           order_reference_number := some (readBE m (p + 10) 8),
           buy_sell_indicator := some (byteAt m (p + 18)),
           shares := some (readBE m (p + 19) 4),
           stock := some (asciiField m (p + 23) 8),
           price := some (readBE m (p + 31) 4),
           match_number := some (readBE m (p + 35) 8) }

/-- Handler for type `Q` (`process_cross_trade_message`). -/
def process_cross_trade_message (m : Mem) (p : Nat) (r : Row) : Row :=
  { r with stock_locate := some (readBE m p 2),
           tracking_number := some (readBE m (p + 2) 2),
           timestamp := some (readBE m (p + 4) 6),
           cross_shares := some (readBE m (p + 10) 8),
           stock := some (asciiField m (p + 18) 8),
           cross_price := some (readBE m (p + 26) 4),
           match_number := some (readBE m (p + 30) 8),
           cross_type := some (byteAt m (p + 38)) }

/-- Handler for type `B` (`process_broken_trade_message`). -/
def process_broken_trade_message (m : Mem) (p : Nat) (r : Row) : Row :=
  { r with stock_locate := some (readBE m p 2),
           tracking_number := some (readBE m (p + 2) 2),
           timestamp := some (readBE m (p + 4) 6),
           match_number := some (readBE m (p + 10) 8) }

/-- Handler for type `I` (`process_net_order_imbalance_indicator_message`). -/
def process_net_order_imbalance_indicator_message (m : Mem) (p : Nat) (r : Row) : Row :=
  { r with stock_locate := some (readBE m p 2),
           tracking_number := some (readBE m (p + 2) 2),
           timestamp := some (readBE m (p + 4) 6),
           paired_shares := some (readBE m (p + 10) 8),
           imbalance_shares := some (readBE m (p + 18) 8),
           imbalance_direction := some (byteAt m (p + 26)),
           stock := some (asciiField m (p + 27) 8),
           far_price := some (readBE m (p + 35) 4),
           near_price := some (readBE m (p + 39) 4),
           current_reference_price := some (readBE m (p + 43) 4),
           cross_type := some (byteAt m (p + 47)),
           price_variation_indicator := some (byteAt m (p + 48)) }

/-- Handler for type `N` (`process_retail_interest_message`). -/
def process_retail_interest_message (m : Mem) (p : Nat) (r : Row) : Row :=
  { r with stock_locate := some (readBE m p 2),
           tracking_number := some (readBE m (p + 2) 2),
           timestamp := some (readBE m (p + 4) 6),
           stock := some (asciiField m (p + 10) 8),
           interest_flag := some (byteAt m (p + 18)) }

/-- Catalog dispatch `converter::process(u_char**, char)`: the `switch` over
the one-byte message type (ASCII codes `S R H Y L V W K A J F E C X D U P Q B
I N`); the `default` branch leaves the row untouched. -/
def converter_dispatch (t : Nat) (m : Mem) (p : Nat) (r : Row) : Row :=
  if t = 83 then process_system_event_message m p r
  else if t = 82 then process_stock_directory_message m p r
  else if t = 72 then process_stock_trading_action_message m p r
  else if t = 89 then process_reg_sho_message m p r
  else if t = 76 then process_market_participant_position_message m p r
  else if t = 86 then process_mwcb_decline_level_message m p r
  else if t = 87 then process_mwcb_status_level_message m p r
  else if t = 75 then process_ipo_quoting_period_update m p r
  else if t = 65 then process_add_order_no_mpid_attribution_message m p r
  else if t = 74 then process_luld_auction_collar_message m p r
  else if t = 70 then process_add_order_with_mpid_attribution_message m p r
  else if t = 69 then process_order_executed_message m p r
  else if t = 67 then process_order_executed_with_price_message m p r
  else if t = 88 then process_order_cancel_message m p r
  else if t = 68 then process_order_delete_message m p r
  else if t = 85 then process_order_replace_message m p r
  else if t = 80 then process_non_cross_trade_message m p r
  else if t = 81 then process_cross_trade_message m p r
  else if t = 66 then process_broken_trade_message m p r
  else if t = 73 then process_net_order_imbalance_indicator_message m p r
  else if t = 78 then process_retail_interest_message m p r
  else r

/-- The message-type bytes handled by the `switch` in `converter::process`. -/
def catalogTypes : List Nat :=
  [83, 82, 72, 89, 76, 86, 87, 75, 65, 74, 70, 69, 67, 88, 68, 85, 80, 81, 66, 73, 78]

/-- The ordered field list each handler populates (the per-type catalog). -/
def catalogFields : Nat → List Field
  | 83 => [.stock_locate, .tracking_number, .timestamp, .event_code]
  | 82 => [.stock_locate, .tracking_number, .timestamp, .stock, .market_category,
           .financial_status_indicator, .round_lot_size, .round_lots_only,
           .issue_classification, .issue_sub_type, .authenticity,
           .short_sale_threshold_indicator, .ipo_flag, .luld_reference_price_tier,
           .etp_flag, .etp_leverage_factor, .inverse_indicator]
  | 72 => [.stock_locate, .tracking_number, .timestamp, .stock, .trading_state,
           .reserved, .reason]
  | 89 => [.locate_code, .tracking_number, .timestamp, .stock, .reg_sho_action]
  | 76 => [.stock_locate, .tracking_number, .timestamp, .mpid, .stock,
           .primary_market_maker, .market_maker_mode, .market_participant_state]
  | 86 => [.stock_locate, .tracking_number, .timestamp, .level_1, .level_2, .level_3]
  | 87 => [.stock_locate, .tracking_number, .timestamp, .breached_level]
  | 75 => [.stock_locate, .tracking_number, .timestamp, .stock,
           .ipo_quotation_release_time, .ipo_quotation_release_qualifier, .ipo_price]
  | 65 => [.stock_locate, .tracking_number, .timestamp, .order_reference_number,
           .buy_sell_indicator, .shares, .stock, .price]
  | 74 => [.stock_locate, .tracking_number, .timestamp, .stock,
           .auction_collar_reference_price, .upper_auction_collar_price,
           .lower_auction_collar_price, .auction_collar_extension]
  | 70 => [.stock_locate, .tracking_number, .timestamp, .order_reference_number,
           .buy_sell_indicator, .shares, .stock, .price, .attribution]
  | 69 => [.stock_locate, .tracking_number, .timestamp, .order_reference_number,
           .executed_shares, .match_number]
  | 67 => [.stock_locate, .tracking_number, .timestamp, .order_reference_number,
           .executed_shares, .match_number, .printable, .execution_price]
  | 88 => [.stock_locate, .tracking_number, .timestamp, .order_reference_number,
           .canceled_shares]
  | 68 => [.stock_locate, .tracking_number, .timestamp, .order_reference_number]
  | 85 => [.stock_locate, .tracking_number, .timestamp,
           .original_order_reference_number, .new_order_reference_number,
           .shares, .price]
  | 80 => [.stock_locate, .tracking_number, .timestamp, .order_reference_number,
           .buy_sell_indicator, .shares, .stock, .price, .match_number]
  | 81 => [.stock_locate, .tracking_number, .timestamp, .cross_shares, .stock,
           .cross_price, .match_number, .cross_type]
  | 66 => [.stock_locate, .tracking_number, .timestamp, .match_number]
  | 73 => [.stock_locate, .tracking_number, .timestamp, .paired_shares,
           .imbalance_shares, .imbalance_direction, .stock, .far_price,
           .near_price, .current_reference_price, .cross_type,
           .price_variation_indicator]
  | 78 => [.stock_locate, .tracking_number, .timestamp, .stock, .interest_flag]
  | _ => []

/-- Membership of a field in the catalog entry for a type, as a boolean. -/
def catalogHas (t : Nat) (f : Field) : Bool := (catalogFields t).contains f

/-- The `message_index::increment` member: `data++` on a `uint16` (wraps at
65536), then `data <= count` decides whether the framer loop continues. -/
def message_index_increment (data count : Nat) : Nat × Bool :=
  (((data + 1) % 65536), decide ((data + 1) % 65536 ≤ count))

/-- A freshly reset row for one message block: framing fields set, every
message field absent (the state right after `record.reset()`,
`message_type.set` and the sequence increment inside the framer loop). -/
def blankRow (idx : Nat) (ts : Int) (sess : List Nat) (seq d t : Nat) : Row :=
  { pcap_index := idx, pcap_timestamp := ts, session := sess,
    message_sequence := seq, message_index := d, message_type := t }

/-- The `while (record.message_index.increment())` framer loop of
`converter::process`.  `cur` points at the next 2-byte message-length field,
`data` is the current `message_index.data`, `count` the header Message Count,
`seq` the current `message_sequence.data` (a `uint64`, hence mod `2^64`).
Each pass reads the length `L`, reads the type byte, increments the sequence,
dispatches on the type, and unconditionally appends the row; it then resumes
at `cur + 2 + L` (MoldUDP64 length, not the catalog's field sum).  The `Bool`
is `true` when the loop exited through its guard within the given fuel. -/
def moldLoop (m : Mem) (idx : Nat) (ts : Int) (sess : List Nat) (count : Nat) :
    Nat → Nat → Nat → Nat → List Row × Bool
  | 0, _, _, _ => ([], false)
  | fuel + 1, cur, data, seq =>
    if (message_index_increment data count).2 then
      let L := readBE m cur 2
      let t := byteAt m (cur + 2)
      let s := (seq + 1) % 18446744073709551616
      let row := converter_dispatch t m (cur + 3)
        (blankRow idx ts sess s (message_index_increment data count).1 t)
      let rest := moldLoop m idx ts sess count fuel (cur + 2 + L)
        (message_index_increment data count).1 s
      (row :: rest.1, rest.2)
    else ([], true)

/-- Everything `converter::process` does after a successful demux: parse the
20-byte MoldUDP64 downstream header at `p` (Session 10 bytes verbatim,
Sequence 8 bytes big-endian, Message Count 2 bytes big-endian) and run the
framer loop on the blocks that follow.  `idx` is the already-incremented
`pcap_index`; `ts` the pcap timestamp. -/
def processPayload (m : Mem) (p : Nat) (idx : Nat) (ts : Int) (fuel : Nat) :
    List Row × Bool :=
  moldLoop m idx ts (bytesAt m p 10) (readBE m (p + 18) 2)
    fuel (p + 20) 0 (readBE m (p + 10) 8)

/-- The EtherType scan of `try_get_nasdaq_itch`: starting after the two MAC
addresses, advance 4 bytes per shim until the 2-byte EtherType reads IPv4
(`0x0800`).  The C++ loop is unbounded; fuel models the finite buffer. -/
def findEthertypeIp (m : Mem) : Nat → Nat → Option Nat
  | _, 0 => none
  | pos, fuel + 1 =>
    if readBE m pos 2 = 2048 then some pos else findEthertypeIp m (pos + 4) fuel

/-- The demuxer `converter::try_get_nasdaq_itch` minus the `pcap_index`
increment: skip 12 MAC bytes, find the IPv4 EtherType, skip it, read the IPv4
header length from the low nibble of its first byte (little-endian host
bitfield) and skip the header, and if the protocol byte (offset 9) is UDP
(17) return the payload offset past the 8-byte UDP header together with the
UDP length field minus 8. -/
def tryGetItch (m : Mem) (fuel : Nat) : Option (Nat × Int) :=
  match findEthertypeIp m 12 fuel with
  | none => none
  | some ethPos =>
    let ipPos := ethPos + 2
    let afterIp := ipPos + (byteAt m ipPos % 16) * 4
    if byteAt m (ipPos + 9) = 17 then
      some (afterIp + 8, (readBE m (afterIp + 4) 2 : Int) - 8)
    else none

/-- One full pcap record through `converter::process`: `pcap_index` is
incremented first (inside `try_get_nasdaq_itch`, before any demux test, on a
`uint64`); on demux failure nothing else happens; on success the MoldUDP64
payload is processed.  Returns the new `pcap_index`, the rows emitted, and
the loop-exit flag. -/
def processPacket (m : Mem) (pcapIdx : Nat) (ts : Int) (fuel : Nat) :
    Nat × List Row × Bool :=
  let idx := (pcapIdx + 1) % 18446744073709551616
  match tryGetItch m fuel with
  | none => (idx, [], true)
  | some pl => (idx, processPayload m pl.1 idx ts fuel)

/-- Parquet repetition of a column node. -/
inductive Rep where
  | required
  | optional
  deriving DecidableEq

/-- Parquet physical type of a column node. -/
inductive PType where
  | int32
  | int64
  | byteArray
  deriving DecidableEq

/-- Parquet converted (logical) type of a column node. -/
inductive CType where
  | uint8
  | uint16
  | uint32
  | uint64
  | utf8
  | timestampMicros
  deriving DecidableEq

/-- One `parquet::schema::PrimitiveNode` as built by each field's `node()`. -/
structure ColNode where
  name : String
  rep : Rep
  ptype : PType
  ctype : CType
  deriving DecidableEq

/-- The schema node list `record::nodes()`, in source order, each entry
carrying the `name`, `repetition`, `parquet_type` and `converted_type`
constants of the corresponding field struct.  Note the second node: the
`pcap_timestamp` struct declares `name = "timestamp"`. -/
def schemaNodes : List ColNode :=
  [⟨"pcap_index", .required, .int64, .uint64⟩,
   ⟨"timestamp", .required, .int64, .timestampMicros⟩,
   ⟨"session", .required, .byteArray, .utf8⟩,
   ⟨"message_sequence", .required, .int64, .uint64⟩,
   ⟨"message_index", .required, .int32, .uint16⟩,
   ⟨"message_type", .required, .int32, .uint8⟩,
   ⟨"attribution", .optional, .byteArray, .utf8⟩,
   ⟨"auction_collar_extension", .optional, .int32, .uint32⟩,
   ⟨"auction_collar_reference_price", .optional, .int32, .uint32⟩,
   ⟨"authenticity", .optional, .int32, .uint8⟩,
   ⟨"breached_level", .optional, .int32, .uint8⟩,
   ⟨"buy_sell_indicator", .optional, .int32, .uint8⟩,
   ⟨"canceled_shares", .optional, .int32, .uint32⟩,
   ⟨"cross_price", .optional, .int32, .uint32⟩,
   ⟨"cross_shares", .optional, .int64, .uint64⟩,
   ⟨"cross_type", .optional, .int32, .uint8⟩,
   ⟨"current_reference_price", .optional, .int32, .uint32⟩,
   ⟨"etp_flag", .optional, .int32, .uint8⟩,
   ⟨"etp_leverage_factor", .optional, .int32, .uint32⟩,
   ⟨"event_code", .optional, .int32, .uint8⟩,
   ⟨"executed_shares", .optional, .int32, .uint32⟩,
   ⟨"execution_price", .optional, .int32, .uint32⟩,
   ⟨"far_price", .optional, .int32, .uint32⟩,
   ⟨"financial_status_indicator", .optional, .int32, .uint8⟩,
   ⟨"imbalance_direction", .optional, .int32, .uint8⟩,
   ⟨"imbalance_shares", .optional, .int64, .uint64⟩,
   ⟨"interest_flag", .optional, .int32, .uint8⟩,
   ⟨"inverse_indicator", .optional, .int32, .uint8⟩,
   ⟨"ipo_flag", .optional, .int32, .uint8⟩,
   ⟨"ipo_price", .optional, .int32, .uint32⟩,
   ⟨"ipo_quotation_release_qualifier", .optional, .int32, .uint8⟩,
   ⟨"ipo_quotation_release_time", .optional, .int32, .uint32⟩,
   ⟨"issue_classification", .optional, .int32, .uint8⟩,
   ⟨"issue_sub_type", .optional, .byteArray, .utf8⟩,
   ⟨"level_1", .optional, .int64, .uint64⟩,
   ⟨"level_2", .optional, .int64, .uint64⟩,
   ⟨"level_3", .optional, .int64, .uint64⟩,
   ⟨"locate_code", .optional, .int32, .uint16⟩,
   ⟨"lower_auction_collar_price", .optional, .int32, .uint32⟩,
   ⟨"luld_reference_price_tier", .optional, .int32, .uint8⟩,
   ⟨"market_category", .optional, .int32, .uint8⟩,
   ⟨"market_maker_mode", .optional, .int32, .uint8⟩,
   ⟨"market_participant_state", .optional, .int32, .uint8⟩,
   ⟨"match_number", .optional, .int64, .uint64⟩,
   ⟨"mpid", .optional, .byteArray, .utf8⟩,
   ⟨"near_price", .optional, .int32, .uint32⟩,
   ⟨"new_order_reference_number", .optional, .int64, .uint64⟩,
   ⟨"order_reference_number", .optional, .int64, .uint64⟩,
   ⟨"original_order_reference_number", .optional, .int64, .uint64⟩,
   ⟨"paired_shares", .optional, .int64, .uint64⟩,
   ⟨"price", .optional, .int32, .uint32⟩,
   ⟨"price_variation_indicator", .optional, .int32, .uint8⟩,
   ⟨"primary_market_maker", .optional, .int32, .uint8⟩,
   ⟨"printable", .optional, .int32, .uint8⟩,
   ⟨"reason", .optional, .byteArray, .utf8⟩,
   ⟨"reg_sho_action", .optional, .int32, .uint8⟩,
   ⟨"reserved", .optional, .int32, .uint8⟩,
   ⟨"round_lot_size", .optional, .int32, .uint32⟩,
   ⟨"round_lots_only", .optional, .int32, .uint8⟩,
   ⟨"shares", .optional, .int32, .uint32⟩,
   ⟨"short_sale_threshold_indicator", .optional, .int32, .uint8⟩,
   ⟨"stock", .optional, .byteArray, .utf8⟩,
   ⟨"stock_locate", .optional, .int32, .uint16⟩,
   ⟨"timestamp", .optional, .int64, .uint64⟩,
   ⟨"tracking_number", .optional, .int32, .uint16⟩,
   ⟨"trading_state", .optional, .int32, .uint8⟩,
   ⟨"upper_auction_collar_price", .optional, .int32, .uint32⟩]

/-- One typed value on the Parquet stream.  The `parquet::StreamWriter` and
`StreamReader` are external collaborators (spec §1, §6); they are modelled as
a FIFO of typed column values: the writer appends one cell per column, the
reader consumes cells of the same types in the same order.  Optional cells
carry `none` for an explicit null. -/
inductive Cell where
  | reqU64 (n : Nat)
  | reqTs (t : Int)
  | reqStr (s : List Nat)
  | reqU16 (n : Nat)
  | reqU8 (n : Nat)
  | optU8 (v : Option Nat)
  | optU16 (v : Option Nat)
  | optU32 (v : Option Nat)
  | optU64 (v : Option Nat)
  | optStr (v : Option (List Nat))
  deriving DecidableEq

/-- The stream-writer `operator<<(parquet::StreamWriter&, const record&)`:
one cell per column, in source order, with each field's declared column type
(`message_type` goes out as the `uint8` cast of its char). -/
def writeRecord (r : Row) : List Cell :=
  [.reqU64 r.pcap_index, .reqTs r.pcap_timestamp, .reqStr r.session,
   .reqU64 r.message_sequence, .reqU16 r.message_index, .reqU8 r.message_type,
   .optStr r.attribution, .optU32 r.auction_collar_extension,
   .optU32 r.auction_collar_reference_price, .optU8 r.authenticity,
   .optU8 r.breached_level, .optU8 r.buy_sell_indicator,
   .optU32 r.canceled_shares, .optU32 r.cross_price, .optU64 r.cross_shares,
   .optU8 r.cross_type, .optU32 r.current_reference_price, .optU8 r.etp_flag,
   .optU32 r.etp_leverage_factor, .optU8 r.event_code,
   .optU32 r.executed_shares, .optU32 r.execution_price, .optU32 r.far_price,
   .optU8 r.financial_status_indicator, .optU8 r.imbalance_direction,
   .optU64 r.imbalance_shares, .optU8 r.interest_flag,
   .optU8 r.inverse_indicator, .optU8 r.ipo_flag, .optU32 r.ipo_price,
   .optU8 r.ipo_quotation_release_qualifier,
   .optU32 r.ipo_quotation_release_time, .optU8 r.issue_classification,
   .optStr r.issue_sub_type, .optU64 r.level_1, .optU64 r.level_2,
   .optU64 r.level_3, .optU16 r.locate_code,
   .optU32 r.lower_auction_collar_price, .optU8 r.luld_reference_price_tier,
   .optU8 r.market_category, .optU8 r.market_maker_mode,
   .optU8 r.market_participant_state, .optU64 r.match_number,
   .optStr r.mpid, .optU32 r.near_price,
   .optU64 r.new_order_reference_number, .optU64 r.order_reference_number,
   .optU64 r.original_order_reference_number, .optU64 r.paired_shares,
   .optU32 r.price, .optU8 r.price_variation_indicator,
   .optU8 r.primary_market_maker, .optU8 r.printable, .optStr r.reason,
   .optU8 r.reg_sho_action, .optU8 r.reserved, .optU32 r.round_lot_size,
   .optU8 r.round_lots_only, .optU32 r.shares,
   .optU8 r.short_sale_threshold_indicator, .optStr r.stock,
   .optU16 r.stock_locate, .optU64 r.timestamp, .optU16 r.tracking_number,
   .optU8 r.trading_state, .optU32 r.upper_auction_collar_price]

/-- The stream-reader `operator>>(parquet::StreamReader&, record&)`: consume
the same column sequence cell by cell (`message_type` comes back through the
`uint8`-to-char cast); any shape mismatch fails. -/
def readRecord : List Cell → Option Row
  | .reqU64 a1 :: .reqTs a2 :: .reqStr a3 :: .reqU64 a4 :: .reqU16 a5 ::
    .reqU8 a6 :: .optStr b1 :: .optU32 b2 :: .optU32 b3 :: .optU8 b4 ::
    .optU8 b5 :: .optU8 b6 :: .optU32 b7 :: .optU32 b8 :: .optU64 b9 ::
    .optU8 b10 :: .optU32 b11 :: .optU8 b12 :: .optU32 b13 :: .optU8 b14 ::
    .optU32 b15 :: .optU32 b16 :: .optU32 b17 :: .optU8 b18 :: .optU8 b19 ::
    .optU64 b20 :: .optU8 b21 :: .optU8 b22 :: .optU8 b23 :: .optU32 b24 ::
    .optU8 b25 :: .optU32 b26 :: .optU8 b27 :: .optStr b28 :: .optU64 b29 ::
    .optU64 b30 :: .optU64 b31 :: .optU16 b32 :: .optU32 b33 :: .optU8 b34 ::
    .optU8 b35 :: .optU8 b36 :: .optU8 b37 :: .optU64 b38 :: .optStr b39 ::
    .optU32 b40 :: .optU64 b41 :: .optU64 b42 :: .optU64 b43 :: .optU64 b44 ::
    .optU32 b45 :: .optU8 b46 :: .optU8 b47 :: .optU8 b48 :: .optStr b49 ::
    .optU8 b50 :: .optU8 b51 :: .optU32 b52 :: .optU8 b53 :: .optU32 b54 ::
    .optU8 b55 :: .optStr b56 :: .optU16 b57 :: .optU64 b58 :: .optU16 b59 ::
    .optU8 b60 :: .optU32 b61 :: _ =>
      some ⟨a1, a2, a3, a4, a5, a6, b1, b2, b3, b4, b5, b6, b7, b8, b9, b10,
            b11, b12, b13, b14, b15, b16, b17, b18, b19, b20, b21, b22, b23,
            b24, b25, b26, b27, b28, b29, b30, b31, b32, b33, b34, b35, b36,
            b37, b38, b39, b40, b41, b42, b43, b44, b45, b46, b47, b48, b49,
            b50, b51, b52, b53, b54, b55, b56, b57, b58, b59, b60, b61⟩
  | _ => none

/-- MoldUDP64 payload for the spec's Scenario A: Session `"SESSION001"`,
Sequence 100, Count 1, one 12-byte `S` (System Event) block with
stock_locate 0, tracking_number 0, timestamp 57600 and event_code `'O'`. -/
def scenarioAPayload : List Nat :=
  [83, 69, 83, 83, 73, 79, 78, 48, 48, 49,
   0, 0, 0, 0, 0, 0, 0, 100,
   0, 1,
   0, 12,
   83, 0, 0, 0, 0, 0, 0, 0, 0, 225, 0, 79]

/-- MoldUDP64 payload for the spec's Scenario C: Sequence 100, Count 2, one
valid 19-byte `D` (Order Delete) block followed by a 1-byte block whose type
`0x7A` has no catalog entry. -/
def scenarioCPayload : List Nat :=
  [65, 65, 65, 65, 65, 65, 65, 65, 65, 65,
   0, 0, 0, 0, 0, 0, 0, 100,
   0, 2,
   0, 19,
   68, 0, 1, 0, 0, 0, 0, 0, 0, 0, 1, 0, 0, 0, 0, 0, 0, 0, 5,
   0, 1,
   122]

/-- MoldUDP64 payload whose header says Count 3 but which contains no message
blocks at all (the 20 header bytes are the whole datagram). -/
def countOnlyPayload : List Nat :=
  [0, 0, 0, 0, 0, 0, 0, 0, 0, 0,
   0, 0, 0, 0, 0, 0, 0, 0,
   0, 3]

/-- MoldUDP64 payload whose Message Count field is `0xFFFF`. -/
def ffffPayload : List Nat :=
  [0, 0, 0, 0, 0, 0, 0, 0, 0, 0,
   0, 0, 0, 0, 0, 0, 0, 0,
   255, 255]

/-- A full Ethernet/IPv4/UDP frame whose MoldUDP64 payload (offset 42) has
Message Count 0: 12 MAC bytes, EtherType `0x0800`, a 20-byte IPv4 header
(`0x45`, protocol 17), an 8-byte UDP header with length 28, then the 20-byte
MoldUDP64 header. -/
def countZeroPacket : List Nat :=
  [0, 0, 0, 0, 0, 0, 0, 0, 0, 0, 0, 0,
   8, 0,
   69, 0, 0, 0, 0, 0, 0, 0, 0, 17, 0, 0, 0, 0, 0, 0, 0, 0, 0, 0,
   0, 0, 0, 0, 0, 28, 0, 0,
   0, 0, 0, 0, 0, 0, 0, 0, 0, 0,
   0, 0, 0, 0, 0, 0, 0, 0,
   0, 0]

/-- An 8-byte fixed-ASCII body `"AB CD   "`: a non-space byte after an
interior space. -/
def interiorSpaceBody : List Nat := [65, 66, 32, 67, 68, 32, 32, 32]

/-- Strict lexicographic order on code-point lists. -/
def natListLt : List Nat → List Nat → Bool
  | [], [] => false
  | [], _ :: _ => true
  | _ :: _, [] => false
  | a :: as, b :: bs => if a < b then true else if b < a then false else natListLt as bs

/-- Strict alphabetical (code-point lexicographic) order on strings. -/
def strLt (a b : String) : Bool :=
  natListLt (a.toList.map Char.toNat) (b.toList.map Char.toNat)

/-- Whether a list of names is in strictly increasing alphabetical order. -/
def strictlySorted : List String → Bool
  | [] => true
  | [_] => true
  | a :: b :: rest => strLt a b && strictlySorted (b :: rest)

/-! Auxiliary lemmas about the embedded definitions. -/

/-- Peeling one byte off a raw-byte read. -/
theorem bytesAt_succ (m : Mem) (p n : Nat) :
    bytesAt m p (n + 1) = byteAt m p :: bytesAt m (p + 1) n := by
  unfold bytesAt
  rw [List.range_succ_eq_map, List.map_cons, List.map_map]
  refine congrArg₂ _ (by rw [Nat.add_zero]) ?_
  apply List.map_congr_left
  intro a _
  simp only [Function.comp_apply]
  exact congrArg (byteAt m) (by omega)

/-- The space scan takes exactly the maximal space-free prefix: `asciiField`
equals `takeWhile (· ≠ 0x20)` on the body bytes. -/
theorem asciiField_eq_takeWhile (m : Mem) (n p : Nat) :
    asciiField m p n = (bytesAt m p n).takeWhile (fun b => b != 32) := by
  induction n generalizing p with
  | zero => rfl
  | succ k ih =>
    unfold asciiField at ih ⊢
    unfold scanIndex
    rw [bytesAt_succ, List.takeWhile_cons]
    by_cases h : byteAt m p = 32
    · rw [if_pos h, List.take_zero]
      simp [h]
    · rw [if_neg h, List.take_succ_cons]
      have hb : (byteAt m p != 32) = true := by simp [h]
      rw [hb, if_pos rfl]
      exact congrArg _ (ih (p + 1))

/-- A body made entirely of spaces decodes to the empty text. -/
theorem asciiField_all_spaces (m : Mem) (p n : Nat)
    (h : ∀ i, i < n → byteAt m (p + i) = 32) : asciiField m p n = [] := by
  cases n with
  | zero => rfl
  | succ k =>
    have h0 : byteAt m p = 32 := by
      have := h 0 (Nat.succ_pos k)
      rwa [Nat.add_zero] at this
    unfold asciiField scanIndex
    rw [if_pos h0, List.take_zero]

/-- The `default` branch of the type `switch`: a type byte outside the
catalog leaves the row exactly as it was. -/
theorem converter_dispatch_unknown (t : Nat) (m : Mem) (p : Nat) (r : Row)
    (h : t ∉ catalogTypes) : converter_dispatch t m p r = r := by
  simp only [catalogTypes, List.mem_cons, List.not_mem_nil, or_false, not_or] at h
  obtain ⟨h1, h2, h3, h4, h5, h6, h7, h8, h9, h10, h11, h12, h13, h14, h15,
    h16, h17, h18, h19, h20, h21⟩ := h
  simp [converter_dispatch, h1, h2, h3, h4, h5, h6, h7, h8, h9, h10, h11,
    h12, h13, h14, h15, h16, h17, h18, h19, h20, h21]

set_option maxHeartbeats 2000000 in
/-- Catalog dispatch never touches the `message_sequence` framing field. -/
theorem converter_dispatch_message_sequence (t : Nat) (m : Mem) (p : Nat) (r : Row) :
    (converter_dispatch t m p r).message_sequence = r.message_sequence := by
  by_cases h : t ∈ catalogTypes
  · simp only [catalogTypes, List.mem_cons, List.not_mem_nil, or_false] at h
    rcases h with h | h | h | h | h | h | h | h | h | h | h | h | h | h | h |
      h | h | h | h | h | h <;> subst h <;> rfl
  · rw [converter_dispatch_unknown t m p r h]

set_option maxHeartbeats 2000000 in
/-- Catalog dispatch never touches the `message_index` framing field. -/
theorem converter_dispatch_message_index (t : Nat) (m : Mem) (p : Nat) (r : Row) :
    (converter_dispatch t m p r).message_index = r.message_index := by
  by_cases h : t ∈ catalogTypes
  · simp only [catalogTypes, List.mem_cons, List.not_mem_nil, or_false] at h
    rcases h with h | h | h | h | h | h | h | h | h | h | h | h | h | h | h |
      h | h | h | h | h | h <;> subst h <;> rfl
  · rw [converter_dispatch_unknown t m p r h]

/-- The loop guard holds whenever another block remains (`data < count`,
with `count` below the `uint16` wrap threshold). -/
theorem message_index_increment_true (data count : Nat) (hc : count < 65535)
    (hd : data < count) : (message_index_increment data count).2 = true := by
  simp only [message_index_increment, decide_eq_true_eq]
  rw [Nat.mod_eq_of_lt (by omega)]
  omega

/-- The `uint16` step is an honest `+ 1` below the wrap threshold. -/
theorem message_index_increment_fst (data : Nat) (count : Nat)
    (hd : data + 1 < 65536) : (message_index_increment data count).1 = data + 1 := by
  simp only [message_index_increment]
  exact Nat.mod_eq_of_lt hd

/-- The loop guard fails at the last block (`data = count < 65535`), so the
framer loop exits. -/
theorem message_index_increment_false (count : Nat) (hc : count < 65535) :
    (message_index_increment count count).2 = false := by
  simp only [message_index_increment, decide_eq_false_iff_not]
  rw [Nat.mod_eq_of_lt (by omega)]
  omega

/-- For any Message Count below the `uint16` wrap threshold, the framer loop
performs exactly `count - data` more passes: it emits that many rows and
exits through its guard, for every memory content whatsoever. -/
theorem moldLoop_length (m : Mem) (idx : Nat) (ts : Int) (sess : List Nat)
    (count : Nat) (hc : count < 65535) :
    ∀ fuel data cur seq, data ≤ count → count - data < fuel →
      (moldLoop m idx ts sess count fuel cur data seq).1.length = count - data ∧
      (moldLoop m idx ts sess count fuel cur data seq).2 = true := by
  intro fuel
  induction fuel with
  | zero => intro data cur seq _ h2; omega
  | succ fuel ih =>
    intro data cur seq h1 h2
    by_cases hd : data < count
    · rw [moldLoop, if_pos (message_index_increment_true data count hc hd)]
      simp only
      rw [message_index_increment_fst data count (by omega)]
      have := ih (data + 1) (cur + 2 + readBE m cur 2)
        ((seq + 1) % 18446744073709551616) (by omega) (by omega)
      refine ⟨?_, this.2⟩
      simp only [List.length_cons, this.1]
      omega
    · have hdc : data = count := by omega
      subst hdc
      rw [moldLoop, if_neg ?_]
      · exact ⟨by simp, rfl⟩
      · rw [message_index_increment_false data hc]
        exact Bool.false_ne_true

/-- Row-by-row characterization of the framer loop's framing counters: the
`i`-th row it emits carries `message_sequence = (seq + i + 1) mod 2^64` (the
sequence register is incremented *before* the row is written) and
`message_index = data + i + 1`. -/
theorem moldLoop_get (m : Mem) (idx : Nat) (ts : Int) (sess : List Nat)
    (count : Nat) (hc : count < 65535) :
    ∀ fuel data cur seq i, data ≤ count → count - data < fuel → i < count - data →
      ((moldLoop m idx ts sess count fuel cur data seq).1.get? i).map
          Row.message_sequence = some ((seq + i + 1) % 18446744073709551616) ∧
      ((moldLoop m idx ts sess count fuel cur data seq).1.get? i).map
          Row.message_index = some (data + i + 1) := by
  intro fuel
  induction fuel with
  | zero => intro data cur seq i _ h2 _; omega
  | succ fuel ih =>
    intro data cur seq i h1 h2 h3
    have hd : data < count := by omega
    rw [moldLoop, if_pos (message_index_increment_true data count hc hd)]
    simp only
    rw [message_index_increment_fst data count (by omega)]
    cases i with
    | zero =>
      simp only [List.get?_cons_zero, Option.map_some']
      constructor
      · rw [converter_dispatch_message_sequence]
        rfl
      · rw [converter_dispatch_message_index]
        rfl
    | succ j =>
      simp only [List.get?_cons_succ]
      have := ih (data + 1) (cur + 2 + readBE m cur 2)
        ((seq + 1) % 18446744073709551616) j (by omega) (by omega) (by omega)
      refine ⟨?_, ?_⟩
      · rw [this.1]
        refine congrArg some ?_
        rw [Nat.add_assoc ((seq + 1) % 18446744073709551616) j 1, Nat.mod_add_mod]
        exact congrArg (· % 18446744073709551616) (by omega)
      · rw [this.2]
        exact congrArg some (by omega)

/-- With Message Count `0xFFFF` the framer loop can never exit through its
guard: after 65535 passes the `uint16` `message_index.data` wraps to 0, which
is again `≤ count`, so `data <= count` holds for every pass, whatever the
memory and however much fuel is supplied. -/
theorem moldLoop_ffff_never_exits (m : Mem) (idx : Nat) (ts : Int)
    (sess : List Nat) :
    ∀ fuel cur data seq,
      (moldLoop m idx ts sess 65535 fuel cur data seq).2 = false := by
  intro fuel
  induction fuel with
  | zero => intro cur data seq; rfl
  | succ fuel ih =>
    intro cur data seq
    have hg : (message_index_increment data 65535).2 = true := by
      simp only [message_index_increment, decide_eq_true_eq]
      omega
    rw [moldLoop, if_pos hg]
    exact ih _ _ _

/-- With Message Count `0xFFFF` the framer loop emits one row on every single
pass: it burns all its fuel producing rows. -/
theorem moldLoop_ffff_length (m : Mem) (idx : Nat) (ts : Int) (sess : List Nat) :
    ∀ fuel cur data seq,
      (moldLoop m idx ts sess 65535 fuel cur data seq).1.length = fuel := by
  intro fuel
  induction fuel with
  | zero => intro cur data seq; rfl
  | succ fuel ih =>
    intro cur data seq
    have hg : (message_index_increment data 65535).2 = true := by
      simp only [message_index_increment, decide_eq_true_eq]
      omega
    rw [moldLoop, if_pos hg]
    simp only [List.length_cons]
    rw [ih]

/-- A freshly reset row has every message-field column absent. -/
theorem blankRow_all_absent (idx : Nat) (ts : Int) (sess : List Nat)
    (seq d t : Nat) (f : Field) :
    msgPresent (blankRow idx ts sess seq d t) f = false := by
  cases f <;> rfl

/-! Theorems for the individual claims. -/

/-- C1 counterexample.  The claim says a message block whose type has no
catalog entry produces no row, and that Scenario C's packet (one `D` block
plus one block of unknown type `0x7A`) yields exactly one row.  On the
embedded driver that packet yields two rows: the `writer << record` call in
the framer loop is unconditional, so the unknown-type block also emits a
(message-field-empty) row. -/
theorem claim1_counterexample :
    byteAt (memOf scenarioCPayload) 43 = 122 ∧
    (122 ∉ catalogTypes) ∧
    ((processPayload (memOf scenarioCPayload) 0 1 0 5).1).length ≠ 1 ∧
    ((processPayload (memOf scenarioCPayload) 0 1 0 5).1).length = 2 := by
  refine ⟨by decide, by decide, by decide, by decide⟩

/-- C1 (amended): for a block whose type byte has no catalog entry the driver
still consumes the declared length `L` (the next block is parsed at
`cur + 2 + L`) and continues, but it emits a row for the block — one whose
message fields are all absent (the freshly reset row untouched by dispatch). -/
theorem claim1_theorem (m : Mem) (idx : Nat) (ts : Int) (sess : List Nat)
    (count fuel cur data seq : Nat) (hc : count < 65535) (hd : data < count)
    (ht : byteAt m (cur + 2) ∉ catalogTypes) :
    moldLoop m idx ts sess count (fuel + 1) cur data seq =
      (blankRow idx ts sess ((seq + 1) % 18446744073709551616) (data + 1)
          (byteAt m (cur + 2)) ::
        (moldLoop m idx ts sess count fuel (cur + 2 + readBE m cur 2) (data + 1)
          ((seq + 1) % 18446744073709551616)).1,
       (moldLoop m idx ts sess count fuel (cur + 2 + readBE m cur 2) (data + 1)
          ((seq + 1) % 18446744073709551616)).2) ∧
    (∀ f, msgPresent (blankRow idx ts sess ((seq + 1) % 18446744073709551616)
        (data + 1) (byteAt m (cur + 2))) f = false) := by
  constructor
  · rw [moldLoop, if_pos (message_index_increment_true data count hc hd)]
    simp only
    rw [message_index_increment_fst data count (by omega)]
    rw [converter_dispatch_unknown _ _ _ _ ht]
  · intro f
    exact blankRow_all_absent _ _ _ _ _ _ f

/-- C1 witness: the amended statement applied to a concrete one-block packet
of unknown type `0x7A`. -/
theorem claim1_witness :
    ((1 : Nat) < 65535 ∧ (0 : Nat) < 1 ∧
      byteAt (memOf [0, 1, 122]) (0 + 2) ∉ catalogTypes) ∧
    (moldLoop (memOf [0, 1, 122]) 7 0 [] 1 (0 + 1) 0 0 100 =
      (blankRow 7 0 [] ((100 + 1) % 18446744073709551616) (0 + 1)
          (byteAt (memOf [0, 1, 122]) (0 + 2)) ::
        (moldLoop (memOf [0, 1, 122]) 7 0 [] 1 0
          (0 + 2 + readBE (memOf [0, 1, 122]) 0 2) (0 + 1)
          ((100 + 1) % 18446744073709551616)).1,
       (moldLoop (memOf [0, 1, 122]) 7 0 [] 1 0
          (0 + 2 + readBE (memOf [0, 1, 122]) 0 2) (0 + 1)
          ((100 + 1) % 18446744073709551616)).2) ∧
      (∀ f, msgPresent (blankRow 7 0 [] ((100 + 1) % 18446744073709551616)
          (0 + 1) (byteAt (memOf [0, 1, 122]) (0 + 2))) f = false)) :=
  ⟨⟨by decide, by decide, by decide⟩,
   claim1_theorem (memOf [0, 1, 122]) 7 0 [] 1 0 0 0 100
     (by decide) (by decide) (by decide)⟩

/-- C2 counterexample.  The claim says the first row of a packet carries the
Sequence from the MoldUDP64 header.  On Scenario A's payload the header
Sequence is 100, yet the single emitted row carries 101: the driver calls
`message_sequence.increment()` before writing every row, the first included. -/
theorem claim2_counterexample :
    readBE (memOf scenarioAPayload) 10 8 = 100 ∧
    ((processPayload (memOf scenarioAPayload) 0 1 0 2).1.map Row.message_sequence)
        ≠ [readBE (memOf scenarioAPayload) 10 8] ∧
    ((processPayload (memOf scenarioAPayload) 0 1 0 2).1.map Row.message_sequence)
        = [101] := by
  refine ⟨by decide, by decide, by decide⟩

/-- C2 (amended): within one packet the `i`-th emitted row (0-based) carries
`message_sequence = (Sequence + i + 1) mod 2^64` — the first row is one
*greater* than the header Sequence, and each subsequent row is one greater
than the previous — and `message_index = i + 1`. -/
theorem claim2_theorem (m : Mem) (p idx : Nat) (ts : Int) (fuel i : Nat)
    (hc : readBE m (p + 18) 2 < 65535) (hf : readBE m (p + 18) 2 < fuel)
    (hi : i < readBE m (p + 18) 2) :
    ((processPayload m p idx ts fuel).1.get? i).map Row.message_sequence =
        some ((readBE m (p + 10) 8 + i + 1) % 18446744073709551616) ∧
    ((processPayload m p idx ts fuel).1.get? i).map Row.message_index =
        some (i + 1) := by
  unfold processPayload
  have h := moldLoop_get m idx ts (bytesAt m p 10) (readBE m (p + 18) 2) hc
    fuel 0 (p + 20) (readBE m (p + 10) 8) i (Nat.zero_le _) (by omega) (by omega)
  exact ⟨h.1, by simpa using h.2⟩

/-- C2 witness: applied to Scenario A's concrete payload (Sequence 100,
Count 1), giving first-row sequence 101. -/
theorem claim2_witness :
    (readBE (memOf scenarioAPayload) (0 + 18) 2 < 65535 ∧
     readBE (memOf scenarioAPayload) (0 + 18) 2 < 2 ∧
     0 < readBE (memOf scenarioAPayload) (0 + 18) 2) ∧
    (((processPayload (memOf scenarioAPayload) 0 1 0 2).1.get? 0).map
        Row.message_sequence =
      some ((readBE (memOf scenarioAPayload) (0 + 10) 8 + 0 + 1) %
        18446744073709551616) ∧
     ((processPayload (memOf scenarioAPayload) 0 1 0 2).1.get? 0).map
        Row.message_index = some (0 + 1)) :=
  ⟨⟨by decide, by decide, by decide⟩,
   claim2_theorem (memOf scenarioAPayload) 0 1 0 2 0
     (by decide) (by decide) (by decide)⟩

/-- C3: a demuxed payload whose Message Count field is `0xFFFF` does *not*
behave like Count 0.  The loop guard `data <= count` can never fail (the
`uint16` index wraps at 65536, and every residue is at most 65535), so the
framer loop never exits through its guard and emits one row per available
pass — the code loops forever where the claim requires termination with no
rows. -/
theorem claim3_theorem (m : Mem) (p idx : Nat) (ts : Int) (fuel : Nat)
    (hcount : readBE m (p + 18) 2 = 65535) :
    (processPayload m p idx ts fuel).2 = false ∧
    (processPayload m p idx ts fuel).1.length = fuel ∧
    (∀ data, (message_index_increment data 65535).2 = true) := by
  unfold processPayload
  rw [hcount]
  refine ⟨moldLoop_ffff_never_exits m idx ts (bytesAt m p 10) fuel (p + 20) 0 _,
          moldLoop_ffff_length m idx ts (bytesAt m p 10) fuel (p + 20) 0 _, ?_⟩
  intro data
  simp only [message_index_increment, decide_eq_true_eq]
  omega

/-- C3 witness: the `0xFFFF` payload, with three fuel units: the loop has not
exited and has already emitted three rows. -/
theorem claim3_witness :
    (readBE (memOf ffffPayload) (0 + 18) 2 = 65535) ∧
    ((processPayload (memOf ffffPayload) 0 1 0 3).2 = false ∧
     (processPayload (memOf ffffPayload) 0 1 0 3).1.length = 3 ∧
     (∀ data, (message_index_increment data 65535).2 = true)) :=
  ⟨by decide, claim3_theorem (memOf ffffPayload) 0 1 0 3 (by decide)⟩

/-- C7: after a successful demux the number of rows is fixed by the Message
Count field alone.  For any memory contents whatsoever — in particular when
the payload holds fewer blocks than Count claims — a Count strictly between 0
and `0xFFFF` yields exactly Count rows, and the loop exits normally.  The
demuxed UDP payload length does not appear: `processPayload` (like the
source, which never reads its `length` local after `try_get_nasdaq_itch`)
is independent of it. -/
theorem claim7_theorem (m : Mem) (p idx : Nat) (ts : Int) (fuel : Nat)
    (h0 : 0 < readBE m (p + 18) 2) (hc : readBE m (p + 18) 2 < 65535)
    (hf : readBE m (p + 18) 2 < fuel) :
    (processPayload m p idx ts fuel).1.length = readBE m (p + 18) 2 ∧
    (processPayload m p idx ts fuel).2 = true := by
  unfold processPayload
  have h := moldLoop_length m idx ts (bytesAt m p 10) (readBE m (p + 18) 2) hc
    fuel 0 (p + 20) (readBE m (p + 10) 8) (Nat.zero_le _) (by omega)
  simpa using h

/-- C7 witness: a 20-byte payload that is nothing but a header with Count 3
still produces exactly three rows. -/
theorem claim7_witness :
    (0 < readBE (memOf countOnlyPayload) (0 + 18) 2 ∧
     readBE (memOf countOnlyPayload) (0 + 18) 2 < 65535 ∧
     readBE (memOf countOnlyPayload) (0 + 18) 2 < 4) ∧
    ((processPayload (memOf countOnlyPayload) 0 1 0 4).1.length =
        readBE (memOf countOnlyPayload) (0 + 18) 2 ∧
     (processPayload (memOf countOnlyPayload) 0 1 0 4).2 = true) :=
  ⟨⟨by decide, by decide, by decide⟩,
   claim7_theorem (memOf countOnlyPayload) 0 1 0 4
     (by decide) (by decide) (by decide)⟩

/-- C9: a pcap record whose MoldUDP64 Message Count is 0 emits no rows, and
`pcap_index` is still incremented by one (the increment happens inside
`try_get_nasdaq_itch` before anything else). -/
theorem claim9_theorem (m : Mem) (idx : Nat) (ts : Int) (fuel p : Nat)
    (len : Int) (hdemux : tryGetItch m fuel = some (p, len))
    (hcount : readBE m (p + 18) 2 = 0) :
    processPacket m idx ts fuel =
      ((idx + 1) % 18446744073709551616, [], true) := by
  cases fuel with
  | zero => simp [tryGetItch, findEthertypeIp] at hdemux
  | succ g =>
    unfold processPacket
    rw [hdemux]
    dsimp only
    unfold processPayload
    rw [hcount]
    rw [moldLoop, if_neg (by decide)]

/-- C9 witness: a concrete Ethernet/IPv4/UDP frame with Count 0: no rows, and
`pcap_index` goes from 0 to 1. -/
theorem claim9_witness :
    (tryGetItch (memOf countZeroPacket) 8 = some (42, 20) ∧
     readBE (memOf countZeroPacket) (42 + 18) 2 = 0) ∧
    processPacket (memOf countZeroPacket) 0 0 8 =
      ((0 + 1) % 18446744073709551616, [], true) :=
  ⟨⟨by decide, by decide⟩,
   claim9_theorem (memOf countZeroPacket) 0 0 8 42 20 (by decide) (by decide)⟩

/-- C4 counterexample.  The claim names the second framing column
`pcap_timestamp`, but the `pcap_timestamp` struct declares
`name = "timestamp"`, so the second schema node is called `"timestamp"` —
the same name as the optional message-field `timestamp` column further
down. -/
theorem claim4_counterexample :
    (schemaNodes.map ColNode.name).get? 1 = some "timestamp" ∧
    ("timestamp" : String) ≠ "pcap_timestamp" ∧
    "timestamp" ∈ (schemaNodes.drop 6).map ColNode.name := by
  refine ⟨by decide, by decide, by decide⟩

/-- C4 (amended): the schema is the six framing columns first, in order
`pcap_index`, `timestamp` (the pcap-timestamp column's declared name),
`session`, `message_sequence`, `message_index`, `message_type`, all required,
followed by the 61 message-field columns in strictly increasing alphabetical
order by field name, each optional. -/
theorem claim4_theorem :
    (schemaNodes.take 6).map ColNode.name =
      ["pcap_index", "timestamp", "session", "message_sequence",
       "message_index", "message_type"] ∧
    (∀ c ∈ schemaNodes.take 6, c.rep = Rep.required) ∧
    (∀ c ∈ schemaNodes.drop 6, c.rep = Rep.optional) ∧
    strictlySorted ((schemaNodes.drop 6).map ColNode.name) = true ∧
    schemaNodes.length = 67 := by
  refine ⟨by decide, by decide, by decide, by decide, by decide⟩

/-- C6 counterexample.  The claim says trimming removes trailing `0x20` only
and the decoded text keeps characters that follow an interior space.  For the
8-byte body `"AB CD   "` the decode is `"AB"`: the scan stops at the *first*
space, so `'C'` (byte 67), which follows the interior space, is dropped. -/
theorem claim6_counterexample :
    bytesAt (memOf interiorSpaceBody) 0 8 = [65, 66, 32, 67, 68, 32, 32, 32] ∧
    asciiField (memOf interiorSpaceBody) 0 8 = [65, 66] ∧
    67 ∉ asciiField (memOf interiorSpaceBody) 0 8 := by
  refine ⟨by decide, by decide, by decide⟩

/-- C6 (amended): a fixed-width ASCII decode takes the maximal prefix of the
body that contains no `0x20` byte: trailing spaces are removed, but so is
everything from the first space onward, interior spaces included. -/
theorem claim6_theorem (m : Mem) (n p : Nat) :
    asciiField m p n = (bytesAt m p n).takeWhile (fun b => b != 32) :=
  asciiField_eq_takeWhile m n p

/-- C8: writing a row to the Parquet stream and reading it back restores
every column exactly: the reader's column order and per-column types mirror
the writer's, so the round trip is the identity on rows. -/
theorem claim8_theorem (r : Row) : readRecord (writeRecord r) = some r := rfl

/-- C10: a fixed-width ASCII body that is entirely spaces decodes to text
that is present and empty — `some []`, not `none` — here for the 8-byte
`stock` field of an Add Order message. -/
theorem claim10_theorem (m : Mem) (p : Nat) (r : Row)
    (h : ∀ i, i < 8 → byteAt m (p + 23 + i) = 32) :
    (process_add_order_no_mpid_attribution_message m p r).stock =
      some [] := by
  have hs : asciiField m (p + 23) 8 = [] := asciiField_all_spaces m (p + 23) 8 h
  simp [process_add_order_no_mpid_attribution_message, hs]

/-- C10 witness: all-space memory; the decoded `stock` is present and empty. -/
theorem claim10_witness :
    (∀ i, i < 8 → byteAt (memOf (List.replicate 40 32)) (0 + 23 + i) = 32) ∧
    (process_add_order_no_mpid_attribution_message (memOf (List.replicate 40 32))
        0 (blankRow 1 0 [] 1 1 65)).stock = some [] :=
  ⟨by decide,
   claim10_theorem (memOf (List.replicate 40 32)) 0 (blankRow 1 0 [] 1 1 65)
     (by decide)⟩

set_option maxHeartbeats 4000000 in
/-- C5: for every catalogued message type the dispatched handler applied to a
freshly reset row makes present exactly the fields of that type's catalog
entry: every field the handler sets is non-null, every other message field
stays null. -/
theorem claim5_theorem (t : Nat) (ht : t ∈ catalogTypes) (m : Mem) (p : Nat)
    (r : Row) (f : Field) :
    msgPresent (converter_dispatch t m p (resetMessages r)) f = catalogHas t f := by
  simp only [catalogTypes, List.mem_cons, List.not_mem_nil, or_false] at ht
  rcases ht with h | h | h | h | h | h | h | h | h | h | h | h | h | h | h |
    h | h | h | h | h | h <;> subst h <;> cases f <;> rfl

/-- C5 witness: the System Event handler on a reset row, checked at the
`event_code` field. -/
theorem claim5_witness :
    (83 ∈ catalogTypes) ∧
    msgPresent (converter_dispatch 83 (memOf []) 0
        (resetMessages (blankRow 1 0 [] 1 1 83))) Field.event_code =
      catalogHas 83 Field.event_code :=
  ⟨by decide,
   claim5_theorem 83 (by decide) (memOf []) 0 (blankRow 1 0 [] 1 1 83)
     Field.event_code⟩

end OmiItch
